import Mathlib

/-
  Formal model of the task engine in `background_task/tasks.py` of
  django-background-tasks.

  The model is a shallow embedding: the durable store is a `List Task`,
  timestamps are integers (seconds), and the Django ORM calls that live in
  the absent `background_task/models.py` (`Task.objects.new_task`,
  `Task.objects.unlocked`, `Task.objects.find_available`,
  `Task.objects.get_task`, `Task.lock`, `Task.params`) are modelled from the
  specification, as marked on each definition.  Everything else is a direct
  translation of the Python source in `tasks.py`.

  Python truthiness matters in several places (`run_at or timezone.now()`,
  `self._priority or 0`, `if queue:`); the model keeps those checks explicit.
-/

namespace BackgroundTasks

/-- Positional arguments of a task call (serialized values modelled as `Int`). -/
abbrev Args := List Int

/-- Keyword arguments of a task call. -/
abbrev Kwargs := List (String × Int)

/-- The stored parameters of a task: positional and keyword arguments,
round-tripped through the serialization format. -/
structure Params where
  args : Args
  kwargs : Kwargs
deriving DecidableEq, Repr

/-- A task fingerprint.  Modelled from the spec: the fingerprint is a
deterministic pure function of `(name, args, kwargs)` with no identity or
pointer dependence; it is used only for equality comparisons in the dedup
policy, so it is modelled as the injective pairing of name and params. -/
abbrev Fingerprint := String × Params

/-- Modelled from the spec: the deterministic fingerprint (`task_hash` in the
record layout) computed from the task name and its serialized parameters. -/
def taskHash (name : String) (p : Params) : Fingerprint := (name, p)

/-- A pending task record, mirroring the persisted record layout of the spec
(`background_task/models.py` is not part of the sources, so the columns are
taken from the spec's record layout). -/
structure Task where
  task_name : String
  params : Params
  task_hash : Fingerprint
  run_at : Int
  priority : Int
  queue : Option String
  locked_by : Option String
  locked_at : Option Int
  attempts : Nat
deriving DecidableEq, Repr

/-- Modelled from the spec: `Task.objects.unlocked(now)` — the records whose
lock is free (`locked_by` null) or whose lock is older than the configured
TTL (stale-lock recovery). -/
def Task.isUnlocked (t : Task) (ttl now : Int) : Bool :=
  match t.locked_by, t.locked_at with
  | none, _ => true
  | some _, none => true
  | some _, some lockedAt => decide (lockedAt + ttl < now)

/-- Modelled from the spec: the atomic claim update — set
`locked_by = worker, locked_at = now` on the record. -/
def Task.lock (t : Task) (worker : String) (now : Int) : Task :=
  { t with locked_by := some worker, locked_at := some now }

/-- Python truthiness of the `queue` argument (`if queue:`): `None` and the
empty string are falsy. -/
def queueTruthy : Option String → Bool
  | none => false
  | some q => decide (q ≠ "")

/-- Modelled from the spec: `Task.objects.new_task(...)` builds an unsaved
pending record whose fingerprint is computed from `(name, args, kwargs)`;
with `remove_existing_tasks` it first deletes the unlocked records carrying
the same fingerprint so at most one instance survives. -/
def newTask (store : List Task) (ttl now : Int) (task_name : String) (p : Params)
    (run_at : Int) (priority : Int) (queue : Option String)
    (remove_existing_tasks : Bool) : List Task × Task :=
  let t : Task :=
    { task_name := task_name, params := p, task_hash := taskHash task_name p,
      run_at := run_at, priority := priority, queue := queue,
      locked_by := none, locked_at := none, attempts := 0 }
  let store1 :=
    if remove_existing_tasks then
      store.filter (fun u => !(decide (u.task_hash = t.task_hash) && u.isUnlocked ttl now))
    else store
  (store1, t)

/-- The dedup action constants of `TaskSchedule` (`SCHEDULE = 0`,
`RESCHEDULE_EXISTING = 1`, `CHECK_EXISTING = 2`). -/
inductive ScheduleAction
  | SCHEDULE
  | RESCHEDULE_EXISTING
  | CHECK_EXISTING
deriving DecidableEq, Repr

/-- The filter applied by `DBTaskRunner.schedule` to find dedup candidates:
`Task.objects.unlocked(now).filter(task_hash=task_hash)` followed by
`.filter(queue=queue)` when `queue` is truthy. -/
def matchesExisting (ttl now : Int) (h : Fingerprint) (queue : Option String)
    (t : Task) : Bool :=
  t.isUnlocked ttl now && decide (t.task_hash = h) &&
    (!queueTruthy queue || decide (t.queue = queue))

/-- `DBTaskRunner.schedule` from `tasks.py`: build the unsaved record; for a
non-`SCHEDULE` action look for unlocked records with the same fingerprint
(and queue, when truthy); `RESCHEDULE_EXISTING` runs an update of
`run_at`/`priority` over the matching records and returns `none` when any row
was updated; `CHECK_EXISTING` returns `none` when a matching record exists;
otherwise the record is saved and returned (the Python `return` statements in
the matched branches carry no value, hence the `Option` result). -/
def DBTaskRunner.schedule (store : List Task) (ttl now : Int)
    (task_name : String) (p : Params) (run_at : Int) (priority : Int)
    (action : ScheduleAction) (queue : Option String)
    (remove_existing_tasks : Bool) : List Task × Option Task :=
  let s := newTask store ttl now task_name p run_at priority queue remove_existing_tasks
  let store1 := s.1
  let task := s.2
  match action with
  | .SCHEDULE => (store1 ++ [task], some task)
  | .RESCHEDULE_EXISTING =>
      let m := matchesExisting ttl now task.task_hash queue
      let updated := (store1.filter m).length
      let store2 := store1.map (fun t =>
        if m t then { t with run_at := run_at, priority := priority } else t)
      if 0 < updated then (store2, none) else (store2 ++ [task], some task)
  | .CHECK_EXISTING =>
      let m := matchesExisting ttl now task.task_hash queue
      if 0 < (store1.filter m).length then (store1, none)
      else (store1 ++ [task], some task)

/-- The record literal built by `Task.objects.new_task` for a schedule call:
fresh, unlocked, with the fingerprint computed from name and params. -/
def freshTask (name : String) (p : Params) (r pr : Int) (q : Option String) : Task :=
  { task_name := name, params := p, task_hash := taskHash name p,
    run_at := r, priority := pr, queue := q,
    locked_by := none, locked_at := none, attempts := 0 }

theorem newTask_eq (store : List Task) (ttl now : Int) (name : String) (p : Params)
    (r pr : Int) (q : Option String) :
    newTask store ttl now name p r pr q false = (store, freshTask name p r pr q) := rfl

theorem filter_eq_nil_of_false (m : Task → Bool) (l : List Task)
    (h : ∀ t ∈ l, m t = false) : l.filter m = [] := by
  induction l with
  | nil => rfl
  | cons a as ih =>
      have ha := h a (List.mem_cons_self a as)
      simp [List.filter, ha, ih (fun t ht => h t (List.mem_cons_of_mem a ht))]

theorem map_if_id (m : Task → Bool) (f : Task → Task) (l : List Task)
    (h : ∀ t ∈ l, m t = false) :
    l.map (fun t => if m t then f t else t) = l := by
  induction l with
  | nil => rfl
  | cons a as ih =>
      have ha := h a (List.mem_cons_self a as)
      simp [ha, ih (fun t ht => h t (List.mem_cons_of_mem a ht))]

/-- Unfolding equation of `DBTaskRunner.schedule` for the `SCHEDULE` action. -/
theorem schedule_schedule_eq (store : List Task) (ttl now : Int) (name : String)
    (p : Params) (q : Option String) (r pr : Int) :
    DBTaskRunner.schedule store ttl now name p r pr .SCHEDULE q false =
      (store ++ [freshTask name p r pr q], some (freshTask name p r pr q)) := rfl

/-- Unfolding equation of `DBTaskRunner.schedule` for `RESCHEDULE_EXISTING`. -/
theorem schedule_reschedule_eq (store : List Task) (ttl now : Int) (name : String)
    (p : Params) (q : Option String) (r pr : Int) :
    DBTaskRunner.schedule store ttl now name p r pr .RESCHEDULE_EXISTING q false =
      (if 0 < (store.filter (matchesExisting ttl now (taskHash name p) q)).length
       then ((store.map fun t =>
                if matchesExisting ttl now (taskHash name p) q t
                then { t with run_at := r, priority := pr } else t), none)
       else ((store.map fun t =>
                if matchesExisting ttl now (taskHash name p) q t
                then { t with run_at := r, priority := pr } else t)
              ++ [freshTask name p r pr q], some (freshTask name p r pr q))) := rfl

/-- Unfolding equation of `DBTaskRunner.schedule` for `CHECK_EXISTING`. -/
theorem schedule_check_eq (store : List Task) (ttl now : Int) (name : String)
    (p : Params) (q : Option String) (r pr : Int) :
    DBTaskRunner.schedule store ttl now name p r pr .CHECK_EXISTING q false =
      (if 0 < (store.filter (matchesExisting ttl now (taskHash name p) q)).length
       then (store, none)
       else (store ++ [freshTask name p r pr q], some (freshTask name p r pr q))) := rfl

/-- A `RESCHEDULE_EXISTING` schedule call against a store carrying no
matching unlocked record saves and returns the fresh record. -/
theorem schedule_reschedule_no_match (store : List Task) (ttl now : Int)
    (name : String) (p : Params) (q : Option String) (r pr : Int)
    (h0 : ∀ t ∈ store, matchesExisting ttl now (taskHash name p) q t = false) :
    DBTaskRunner.schedule store ttl now name p r pr .RESCHEDULE_EXISTING q false =
      (store ++ [freshTask name p r pr q], some (freshTask name p r pr q)) := by
  rw [schedule_reschedule_eq, filter_eq_nil_of_false _ _ h0, map_if_id _ _ _ h0]
  simp

/-- A `RESCHEDULE_EXISTING` schedule call against a store carrying a matching
unlocked record updates every matching record in place and returns nothing. -/
theorem schedule_reschedule_match (store : List Task) (ttl now : Int)
    (name : String) (p : Params) (q : Option String) (r pr : Int)
    (h1 : 0 < (store.filter (matchesExisting ttl now (taskHash name p) q)).length) :
    DBTaskRunner.schedule store ttl now name p r pr .RESCHEDULE_EXISTING q false =
      (store.map (fun t =>
        if matchesExisting ttl now (taskHash name p) q t
        then { t with run_at := r, priority := pr } else t), none) := by
  rw [schedule_reschedule_eq, if_pos h1]

/-- A `CHECK_EXISTING` schedule call against a store carrying a matching
unlocked record is a no-op returning nothing. -/
theorem schedule_check_match (store : List Task) (ttl now : Int)
    (name : String) (p : Params) (q : Option String) (r pr : Int)
    (h1 : 0 < (store.filter (matchesExisting ttl now (taskHash name p) q)).length) :
    DBTaskRunner.schedule store ttl now name p r pr .CHECK_EXISTING q false =
      (store, none) := by
  rw [schedule_check_eq, if_pos h1]

theorem matchesExisting_false_of_hash_ne (ttl now : Int) (name : String)
    (p : Params) (q : Option String) (store : List Task)
    (h0 : ∀ t ∈ store, t.task_hash ≠ taskHash name p) :
    ∀ t ∈ store, matchesExisting ttl now (taskHash name p) q t = false := by
  intro t ht
  have hd : decide (t.task_hash = taskHash name p) = false := decide_eq_false (h0 t ht)
  simp [matchesExisting, hd]

theorem matchesExisting_freshTask (ttl now : Int) (name : String) (p : Params)
    (q : Option String) (r pr : Int) :
    matchesExisting ttl now (taskHash name p) q (freshTask name p r pr q) = true := by
  cases q <;> simp [matchesExisting, Task.isUnlocked, freshTask, queueTruthy]

/-- Claim C1: two `RESCHEDULE_EXISTING` schedule calls with the same
name/args/kwargs fingerprint and the same queue, issued against a store that
holds no record with that fingerprint (in particular no locked matching
record), leave exactly one pending Task with that fingerprint, and its
`run_at`/`priority` are the values supplied by the second call; the second
call updates the match in place: the store size does not change and the call
inserts no new record (it returns nothing). -/
theorem schedule_reschedule_existing_pair
    (store : List Task) (ttl now1 now2 : Int) (name : String) (p : Params)
    (q : Option String) (r1 pr1 r2 pr2 : Int)
    (h0 : ∀ t ∈ store, t.task_hash ≠ taskHash name p) :
    ((DBTaskRunner.schedule
        (DBTaskRunner.schedule store ttl now1 name p r1 pr1 .RESCHEDULE_EXISTING q false).1
        ttl now2 name p r2 pr2 .RESCHEDULE_EXISTING q false).1.filter
        (fun t => decide (t.task_hash = taskHash name p)) =
      [freshTask name p r2 pr2 q]) ∧
    (DBTaskRunner.schedule
        (DBTaskRunner.schedule store ttl now1 name p r1 pr1 .RESCHEDULE_EXISTING q false).1
        ttl now2 name p r2 pr2 .RESCHEDULE_EXISTING q false).1.length =
      (DBTaskRunner.schedule store ttl now1 name p r1 pr1 .RESCHEDULE_EXISTING q false).1.length ∧
    (DBTaskRunner.schedule
        (DBTaskRunner.schedule store ttl now1 name p r1 pr1 .RESCHEDULE_EXISTING q false).1
        ttl now2 name p r2 pr2 .RESCHEDULE_EXISTING q false).2 = none := by
  have hm1 := matchesExisting_false_of_hash_ne ttl now1 name p q store h0
  have hm2 := matchesExisting_false_of_hash_ne ttl now2 name p q store h0
  have hs1 := schedule_reschedule_no_match store ttl now1 name p q r1 pr1 hm1
  have hcount :
      0 < (((store ++ [freshTask name p r1 pr1 q]).filter
        (matchesExisting ttl now2 (taskHash name p) q))).length := by
    rw [List.filter_append, filter_eq_nil_of_false _ _ hm2]
    simp [matchesExisting_freshTask]
  have hs2 := schedule_reschedule_match (store ++ [freshTask name p r1 pr1 q])
    ttl now2 name p q r2 pr2 hcount
  have hupd :
      (store ++ [freshTask name p r1 pr1 q]).map (fun t =>
        if matchesExisting ttl now2 (taskHash name p) q t
        then { t with run_at := r2, priority := pr2 } else t) =
      store ++ [freshTask name p r2 pr2 q] := by
    rw [List.map_append, map_if_id _ _ _ hm2]
    simp only [List.map_cons, List.map_nil, matchesExisting_freshTask, if_true]
    simp [freshTask]
  have hproj :
      (DBTaskRunner.schedule store ttl now1 name p r1 pr1
        .RESCHEDULE_EXISTING q false).1 = store ++ [freshTask name p r1 pr1 q] := by
    rw [hs1]
  have hfinal :
      DBTaskRunner.schedule
        (DBTaskRunner.schedule store ttl now1 name p r1 pr1
          .RESCHEDULE_EXISTING q false).1
        ttl now2 name p r2 pr2 .RESCHEDULE_EXISTING q false =
      (store ++ [freshTask name p r2 pr2 q], none) := by
    rw [hproj, hs2, hupd]
  refine ⟨?_, ?_, ?_⟩
  · rw [hfinal]
    show (store ++ [freshTask name p r2 pr2 q]).filter
        (fun t => decide (t.task_hash = taskHash name p)) = _
    rw [List.filter_append,
      filter_eq_nil_of_false _ _ (fun t ht => decide_eq_false (h0 t ht))]
    simp [freshTask]
  · rw [hfinal, hproj]
    simp
  · rw [hfinal]

/-- Witness for C1 at a concrete input: the empty store, fingerprint of
`("demo", demoParams)`, first call `run_at = 5, priority = 1`, second call
`run_at = 7, priority = 2`. -/
theorem schedule_reschedule_existing_pair_witness :
    (∀ t ∈ ([] : List Task), t.task_hash ≠ taskHash "demo" ⟨[1], [("k", 2)]⟩) ∧
    ((DBTaskRunner.schedule
        (DBTaskRunner.schedule [] 1000 0 "demo" ⟨[1], [("k", 2)]⟩ 5 1
          .RESCHEDULE_EXISTING none false).1
        1000 1 "demo" ⟨[1], [("k", 2)]⟩ 7 2 .RESCHEDULE_EXISTING none false).1.filter
        (fun t => decide (t.task_hash = taskHash "demo" ⟨[1], [("k", 2)]⟩)) =
      [freshTask "demo" ⟨[1], [("k", 2)]⟩ 7 2 none]) ∧
    (DBTaskRunner.schedule
        (DBTaskRunner.schedule [] 1000 0 "demo" ⟨[1], [("k", 2)]⟩ 5 1
          .RESCHEDULE_EXISTING none false).1
        1000 1 "demo" ⟨[1], [("k", 2)]⟩ 7 2 .RESCHEDULE_EXISTING none false).1.length =
      (DBTaskRunner.schedule [] 1000 0 "demo" ⟨[1], [("k", 2)]⟩ 5 1
        .RESCHEDULE_EXISTING none false).1.length ∧
    (DBTaskRunner.schedule
        (DBTaskRunner.schedule [] 1000 0 "demo" ⟨[1], [("k", 2)]⟩ 5 1
          .RESCHEDULE_EXISTING none false).1
        1000 1 "demo" ⟨[1], [("k", 2)]⟩ 7 2 .RESCHEDULE_EXISTING none false).2 = none :=
  ⟨by simp,
   schedule_reschedule_existing_pair [] 1000 0 1 "demo" ⟨[1], [("k", 2)]⟩ none 5 1 7 2
     (by simp)⟩

/-- Claim C2: `CHECK_EXISTING` scheduling is idempotent: while the store
holds exactly one record with the call's fingerprint, that record being
unlocked (and in the call's queue when one is given), a `CHECK_EXISTING`
schedule call is a pure no-op returning nothing, so two such calls leave the
store unchanged with exactly one pending Task carrying that fingerprint. -/
theorem schedule_check_existing_idempotent
    (store : List Task) (ttl now1 now2 : Int) (name : String) (p : Params)
    (q : Option String) (r1 pr1 r2 pr2 : Int) (t0 : Task)
    (h1 : store.filter (fun t => decide (t.task_hash = taskHash name p)) = [t0])
    (h2 : t0.locked_by = none)
    (h3 : queueTruthy q = true → t0.queue = q) :
    DBTaskRunner.schedule store ttl now1 name p r1 pr1 .CHECK_EXISTING q false =
      (store, none) ∧
    (DBTaskRunner.schedule
        (DBTaskRunner.schedule store ttl now1 name p r1 pr1 .CHECK_EXISTING q false).1
        ttl now2 name p r2 pr2 .CHECK_EXISTING q false) = (store, none) ∧
    ((DBTaskRunner.schedule
        (DBTaskRunner.schedule store ttl now1 name p r1 pr1 .CHECK_EXISTING q false).1
        ttl now2 name p r2 pr2 .CHECK_EXISTING q false).1.filter
        (fun t => decide (t.task_hash = taskHash name p))).length = 1 := by
  have ht0 : t0 ∈ store ∧ decide (t0.task_hash = taskHash name p) = true := by
    have : t0 ∈ store.filter (fun t => decide (t.task_hash = taskHash name p)) := by
      rw [h1]; exact List.mem_singleton.mpr rfl
    exact List.mem_filter.mp this
  have hmatch : matchesExisting ttl now1 (taskHash name p) q t0 = true ∧
      matchesExisting ttl now2 (taskHash name p) q t0 = true := by
    have hunlocked : ∀ now, t0.isUnlocked ttl now = true := by
      intro now; simp [Task.isUnlocked, h2]
    have hqueue : (!queueTruthy q || decide (t0.queue = q)) = true := by
      cases hq : queueTruthy q
      · simp
      · simp [h3 hq]
    constructor <;> simp [matchesExisting, hunlocked, ht0.2, hqueue]
  have hcount : ∀ now, matchesExisting ttl now (taskHash name p) q t0 = true →
      0 < ((store.filter (matchesExisting ttl now (taskHash name p) q))).length := by
    intro now hm
    exact List.length_pos_of_mem (List.mem_filter.mpr ⟨ht0.1, hm⟩)
  have hc1 := schedule_check_match store ttl now1 name p q r1 pr1
    (hcount now1 hmatch.1)
  have hc2 := schedule_check_match store ttl now2 name p q r2 pr2
    (hcount now2 hmatch.2)
  refine ⟨hc1, ?_, ?_⟩
  · rw [hc1]; exact hc2
  · rw [hc1]
    simp only [hc2, h1, List.length_singleton]

/-- Witness for C2 at a concrete input: a store holding exactly the one
unlocked record `freshTask "demo" ⟨[1], [("k", 2)]⟩ 3 0 none`. -/
theorem schedule_check_existing_idempotent_witness :
    ([freshTask "demo" ⟨[1], [("k", 2)]⟩ 3 0 none].filter
        (fun t => decide (t.task_hash = taskHash "demo" ⟨[1], [("k", 2)]⟩)) =
      [freshTask "demo" ⟨[1], [("k", 2)]⟩ 3 0 none]) ∧
    DBTaskRunner.schedule [freshTask "demo" ⟨[1], [("k", 2)]⟩ 3 0 none]
        1000 0 "demo" ⟨[1], [("k", 2)]⟩ 5 1 .CHECK_EXISTING none false =
      ([freshTask "demo" ⟨[1], [("k", 2)]⟩ 3 0 none], none) ∧
    (DBTaskRunner.schedule
        (DBTaskRunner.schedule [freshTask "demo" ⟨[1], [("k", 2)]⟩ 3 0 none]
          1000 0 "demo" ⟨[1], [("k", 2)]⟩ 5 1 .CHECK_EXISTING none false).1
        1000 1 "demo" ⟨[1], [("k", 2)]⟩ 7 2 .CHECK_EXISTING none false) =
      ([freshTask "demo" ⟨[1], [("k", 2)]⟩ 3 0 none], none) ∧
    ((DBTaskRunner.schedule
        (DBTaskRunner.schedule [freshTask "demo" ⟨[1], [("k", 2)]⟩ 3 0 none]
          1000 0 "demo" ⟨[1], [("k", 2)]⟩ 5 1 .CHECK_EXISTING none false).1
        1000 1 "demo" ⟨[1], [("k", 2)]⟩ 7 2 .CHECK_EXISTING none false).1.filter
        (fun t => decide (t.task_hash = taskHash "demo" ⟨[1], [("k", 2)]⟩))).length = 1 := by
  refine ⟨by simp [freshTask], ?_⟩
  have h := schedule_check_existing_idempotent
    [freshTask "demo" ⟨[1], [("k", 2)]⟩ 3 0 none] 1000 0 1 "demo" ⟨[1], [("k", 2)]⟩
    none 5 1 7 2 (freshTask "demo" ⟨[1], [("k", 2)]⟩ 3 0 none)
    (by simp [freshTask]) rfl (by intro h; cases h)
  exact ⟨h.1, h.2.1, h.2.2⟩

/-- Concrete store record used by several counterexamples. -/
def demoParams : Params := ⟨[1], [("k", 2)]⟩

/-- Concrete unlocked pending record with the fingerprint of
`("demo", demoParams)`. -/
def demoTask : Task := freshTask "demo" demoParams 0 0 none

/-- Claim C3 counterexample: a `RESCHEDULE_EXISTING` schedule call that finds
a matching unlocked record updates it and returns nothing — the return value
is absent for this successful schedule call, contradicting the claim that the
resulting Task is always returned. -/
theorem schedule_reschedule_returns_none_counterexample :
    (DBTaskRunner.schedule [demoTask] 1000 50 "demo" demoParams 60 3
        .RESCHEDULE_EXISTING none false).2 = none := by rfl

/-- Claim C3 (amended): a schedule call returns the newly persisted Task
exactly when it inserts one; when `RESCHEDULE_EXISTING` updates a matching
unlocked record in place, or `CHECK_EXISTING` finds one, the call returns
nothing (the Python `return` in those branches carries no value). -/
theorem schedule_return_value (store : List Task) (ttl now : Int) (name : String)
    (p : Params) (r pr : Int) (action : ScheduleAction) (q : Option String) :
    (DBTaskRunner.schedule store ttl now name p r pr action q false).2 =
      if action ≠ ScheduleAction.SCHEDULE ∧
         0 < (store.filter (matchesExisting ttl now (taskHash name p) q)).length
      then none
      else some (freshTask name p r pr q) := by
  cases action
  · rw [schedule_schedule_eq]; simp
  · rw [schedule_reschedule_eq]
    by_cases hc : 0 < (store.filter (matchesExisting ttl now (taskHash name p) q)).length
    · rw [if_pos hc]; simp [hc]
    · rw [if_neg hc]; simp [hc]
  · rw [schedule_check_eq]
    by_cases hc : 0 < (store.filter (matchesExisting ttl now (taskHash name p) q)).length
    · rw [if_pos hc]; simp [hc]
    · rw [if_neg hc]; simp [hc]

/-- The observability events emitted around an execution (`signals.task_started`,
`signals.task_successful`, `signals.task_error`, `signals.task_finished`), plus
an `invoked` marker recording the arguments the callable is applied to. -/
inductive Event
  | started
  | invoked (args : Args) (kwargs : Kwargs)
  | successful
  | error
  | finished
deriving DecidableEq, Repr

/-- A registered task proxy as `bg_runner` sees it: its registered name and
queue, and its `task_function` attribute.  The callable itself is modelled by
its observable behaviour: `some f` where `f args kwargs = true` means the
call raises; `none` models a proxy whose `task_function` attribute is absent
(`getattr(proxy_task, 'task_function', None)` yields `None`). -/
structure ProxyModel where
  name : String
  queue : Option String
  task_function : Option (Args → Kwargs → Bool)

/-- The argument/record resolution step of `bg_runner`: a `Task` instance
replaces the supplied args/kwargs by the stored params; otherwise the record
is looked up by name and params (`Task.objects.get_task`, modelled from the
spec as a filter on name and serialized params), narrowed to the proxy's
queue when truthy, taking the first hit. -/
def bgResolve (proxy : ProxyModel) (store : List Task) (taskArg : Option Task)
    (args : Args) (kwargs : Kwargs) : Args × Kwargs × Option Task :=
  match taskArg with
  | some t => (t.params.args, t.params.kwargs, some t)
  | none =>
      let qs := store.filter (fun t =>
        decide (t.task_name = proxy.name) && decide (t.params = Params.mk args kwargs))
      let qs := if queueTruthy proxy.queue
        then qs.filter (fun t => decide (t.queue = proxy.queue)) else qs
      (args, kwargs, qs.head?)

/-- `bg_runner` from `tasks.py`, as the trace of events it emits.
`task_started` is sent first; the body runs under `try/except Exception`; on
a normal return of the callable the success bookkeeping (modelled as
non-raising, the record operations live in the absent models module) sends
`task_successful` only when a Task record is associated; on any exception the
handler sends `task_error` only when a Task record is associated; and
`task_finished` is sent after the handler on both paths. -/
def bg_runner (proxy : ProxyModel) (store : List Task) (taskArg : Option Task)
    (argsIn : Args) (kwargsIn : Kwargs) : List Event :=
  let r := bgResolve proxy store taskArg argsIn kwargsIn
  let mid : List Event :=
    match proxy.task_function with
    | none =>
        match r.2.2 with
        | some _ => [Event.error]
        | none => []
    | some f =>
        Event.invoked r.1 r.2.1 ::
          (if f r.1 r.2.1 then
            match r.2.2 with
            | some _ => [Event.error]
            | none => []
          else
            match r.2.2 with
            | some _ => [Event.successful]
            | none => [])
  Event.started :: (mid ++ [Event.finished])

/-- The `KeyError` raised by the registry lookup `self._tasks[task_name]`. -/
structure KeyError where
  key : String
deriving DecidableEq, Repr

/-- Whether a dispatch runs inline (`self._bg_runner(...)`) or is submitted
to the bounded thread pool (`self._pool_runner(...)`), decided by
`app_settings.BACKGROUND_TASK_RUN_ASYNC`. -/
inductive DispatchMode
  | sync
  | pooled
deriving DecidableEq, Repr

/-- Registry lookup: the process-wide `self._tasks` dict mapping registered
names to proxies. -/
def lookupProxy (registry : List (String × ProxyModel)) (n : String) :
    Option ProxyModel :=
  match registry with
  | [] => none
  | (k, v) :: rest => if k = n then some v else lookupProxy rest n

/-- The argument of `Tasks.run_task`: either a persisted `Task` instance or a
bare task name. -/
inductive TaskOrName
  | inst (t : Task)
  | name (n : String)

/-- `Tasks.run_task` from `tasks.py`: a `Task` instance supplies its own name
and clears the supplied args/kwargs; the registry lookup `self._tasks[task_name]`
raises `KeyError` for an unregistered name (modelled as `Except.error`); the
dispatch then runs `bg_runner` inline or submits it to the pool, yielding the
mode and the event trace the run emits. -/
def Tasks.run_task (registry : List (String × ProxyModel)) (runAsync : Bool)
    (store : List Task) (arg : TaskOrName) (args : Args) (kwargs : Kwargs) :
    Except KeyError (DispatchMode × List Event) :=
  let r : Option Task × String × Args × Kwargs :=
    match arg with
    | .inst t => (some t, t.task_name, [], [])
    | .name n => (none, n, args, kwargs)
  match lookupProxy registry r.2.1 with
  | none => .error ⟨r.2.1⟩
  | some proxy =>
      .ok (if runAsync then .pooled else .sync,
           bg_runner proxy store r.1 r.2.2.1 r.2.2.2)

/-- The transient connectivity failure (`django.db.utils.OperationalError`)
that a poll can hit while talking to the store. -/
structure OperationalError where
  msg : String
deriving DecidableEq, Repr

/-- Stable insertion of a task into a list sorted by `le`. -/
def insertTaskBy (le : Task → Task → Bool) (a : Task) : List Task → List Task
  | [] => [a]
  | b :: bs => if le a b then a :: b :: bs else b :: insertTaskBy le a bs

/-- Stable insertion sort used to model the candidate ordering. -/
def sortTasksBy (le : Task → Task → Bool) : List Task → List Task
  | [] => []
  | a :: as => insertTaskBy le a (sortTasksBy le as)

/-- Candidate order: priority descending, then `run_at` ascending; ties keep
insertion order (the sort is stable). -/
def taskBefore (a b : Task) : Bool :=
  decide (b.priority < a.priority) ||
    (decide (a.priority = b.priority) && decide (a.run_at ≤ b.run_at))

/-- Modelled from the spec: `Task.objects.find_available(queue)` — the
pending records with `run_at ≤ now`, in the given queue when one is given,
unlocked or with an expired lock, ordered by priority descending then
`run_at` ascending. -/
def find_available (store : List Task) (queue : Option String) (ttl now : Int) :
    List Task :=
  sortTasksBy taskBefore (store.filter (fun t =>
    decide (t.run_at ≤ now) && t.isUnlocked ttl now &&
      (match queue with
       | some q => decide (t.queue = some q)
       | none => true)))

/-- `DBTaskRunner.get_task_to_run` from `tasks.py`.  The store interaction is
a parameter: `.ok store` is a reachable database, `.error e` a database that
raises `OperationalError` during candidate selection or locking — the
`except OperationalError` handler logs and falls through, so the function
returns `none` (the model's total `Option` result is the never-propagated
guarantee).  On a reachable store: the first five available records whose
names are registered are tried in order, and the first one whose lock
attempt succeeds (the compare-and-swap re-check of "still unlocked") is
returned locked. -/
def DBTaskRunner.get_task_to_run (registry : List (String × ProxyModel))
    (worker : String) (ttl now : Int) (queue : Option String)
    (db : Except OperationalError (List Task)) : Option Task :=
  match db with
  | .error _ => none
  | .ok store =>
      let available := ((find_available store queue ttl now).filter
        (fun t => (lookupProxy registry t.task_name).isSome)).take 5
      match available.find? (fun t => t.isUnlocked ttl now) with
      | some t => some (t.lock worker now)
      | none => none

/-- The store contents a dispatch sees (empty in the unreachable case, which
no dispatch ever reaches). -/
def dbStore (db : Except OperationalError (List Task)) : List Task :=
  match db with
  | .ok s => s
  | .error _ => []

/-- `DBTaskRunner.run_next_task` from `tasks.py`: claim one task; when a task
was claimed, dispatch it through `Tasks.run_task` (passing the `Task`
instance) and return `true`, else return `false`.  The second component
records the dispatch that took place, if any. -/
def DBTaskRunner.run_next_task (registry : List (String × ProxyModel))
    (runAsync : Bool) (worker : String) (ttl now : Int) (queue : Option String)
    (db : Except OperationalError (List Task)) :
    Bool × Option (Except KeyError (DispatchMode × List Event)) :=
  match DBTaskRunner.get_task_to_run registry worker ttl now queue db with
  | some task =>
      (true, some (Tasks.run_task registry runAsync (dbStore db) (.inst task) [] []))
  | none => (false, none)

/-- Unfolding equation of `get_task_to_run` on a reachable store. -/
theorem get_task_to_run_ok_eq (registry : List (String × ProxyModel))
    (worker : String) (ttl now : Int) (queue : Option String) (store : List Task) :
    DBTaskRunner.get_task_to_run registry worker ttl now queue (.ok store) =
      (match (((find_available store queue ttl now).filter
          (fun t => (lookupProxy registry t.task_name).isSome)).take 5).find?
          (fun t => t.isUnlocked ttl now) with
       | some t => some (t.lock worker now)
       | none => none) := rfl

/-- Any task returned by the claim step carries a name present in the local
registry (the candidate list is filtered to registered names). -/
theorem get_task_to_run_registered (registry : List (String × ProxyModel))
    (worker : String) (ttl now : Int) (queue : Option String)
    (db : Except OperationalError (List Task)) (task : Task)
    (h : DBTaskRunner.get_task_to_run registry worker ttl now queue db = some task) :
    (lookupProxy registry task.task_name).isSome = true := by
  cases db with
  | error e => cases h
  | ok store =>
      rw [get_task_to_run_ok_eq] at h
      cases hfind : (((find_available store queue ttl now).filter
          (fun t => (lookupProxy registry t.task_name).isSome)).take 5).find?
          (fun t => t.isUnlocked ttl now) with
      | none => rw [hfind] at h; cases h
      | some t0 =>
          rw [hfind] at h
          have ht : task = t0.lock worker now := by
            injection h with h2
            exact h2.symm
          have hmem := List.mem_of_find?_eq_some hfind
          have hmem2 : t0 ∈ (find_available store queue ttl now).filter
              (fun t => (lookupProxy registry t.task_name).isSome) :=
            List.mem_of_mem_take hmem
          have hreg := (List.mem_filter.mp hmem2).2
          rw [ht]
          exact hreg

/-- Claim C4 counterexample: with `BACKGROUND_TASK_RUN_ASYNC` enabled, a
`run_next_task` poll that claims a task submits it to the thread pool — the
dispatch mode is `pooled`, not synchronous, refuting "that Task is run
synchronously through the Dispatcher" as an unconditional statement. -/
theorem run_next_task_async_counterexample :
    (DBTaskRunner.run_next_task [("demo", ⟨"demo", none, some (fun _ _ => false)⟩)]
        true "w" 1000 10 none (.ok [demoTask])).2.map
        (fun r => match r with | Except.ok pr => some pr.1 | Except.error _ => none) =
      some (some DispatchMode.pooled) ∧
    DispatchMode.pooled ≠ DispatchMode.sync := ⟨rfl, by decide⟩

/-- Claim C4 (amended): `run_next_task` returns `true` exactly when the claim
step returns a Task; the claimed Task is then dispatched through
`Tasks.run_task` — inline (synchronously) when `BACKGROUND_TASK_RUN_ASYNC` is
disabled, submitted to the bounded pool when it is enabled — and `false` is
returned with no dispatch when the claim step yields nothing. -/
theorem run_next_task_dispatch (registry : List (String × ProxyModel))
    (runAsync : Bool) (worker : String) (ttl now : Int) (queue : Option String)
    (db : Except OperationalError (List Task)) :
    (DBTaskRunner.run_next_task registry runAsync worker ttl now queue db).1 =
      (DBTaskRunner.get_task_to_run registry worker ttl now queue db).isSome ∧
    (DBTaskRunner.run_next_task registry runAsync worker ttl now queue db).2 =
      (DBTaskRunner.get_task_to_run registry worker ttl now queue db).map
        (fun task => Tasks.run_task registry runAsync (dbStore db) (.inst task) [] []) ∧
    (DBTaskRunner.run_next_task registry runAsync worker ttl now queue db).2.map
        (fun r => match r with | Except.ok pr => some pr.1 | Except.error _ => none) =
      (DBTaskRunner.get_task_to_run registry worker ttl now queue db).map
        (fun _ => some (if runAsync then DispatchMode.pooled else DispatchMode.sync)) := by
  cases hg : DBTaskRunner.get_task_to_run registry worker ttl now queue db with
  | none => simp [DBTaskRunner.run_next_task, hg]
  | some task =>
      have hreg := get_task_to_run_registered registry worker ttl now queue db task hg
      refine ⟨?_, ?_, ?_⟩
      · simp [DBTaskRunner.run_next_task, hg]
      · simp [DBTaskRunner.run_next_task, hg]
      · cases hl : lookupProxy registry task.task_name with
        | none => rw [hl] at hreg; cases hreg
        | some proxy =>
            simp [DBTaskRunner.run_next_task, hg, Tasks.run_task, hl]

/-- Claim C5: a transient `OperationalError` raised by the store during the
claim step is caught inside `get_task_to_run` (its result type is a plain
`Option`, so the error cannot propagate): the poll yields no task and
`run_next_task` returns `false` with no dispatch. -/
theorem store_error_treated_as_no_work (registry : List (String × ProxyModel))
    (runAsync : Bool) (worker : String) (ttl now : Int) (queue : Option String)
    (e : OperationalError) :
    DBTaskRunner.get_task_to_run registry worker ttl now queue (.error e) = none ∧
    DBTaskRunner.run_next_task registry runAsync worker ttl now queue (.error e) =
      (false, none) := ⟨rfl, rfl⟩

/-- Claim C6 counterexample: dispatching a bare name that is absent from the
registry makes `Tasks.run_task` raise `KeyError` (the model's `Except.error`),
which escapes the entry point instead of being converted into a
`Failure(RegistrationError)` outcome. -/
theorem run_task_unregistered_counterexample :
    Tasks.run_task [] false [] (.name "missing") [] [] =
      Except.error ⟨"missing"⟩ := rfl

/-- Claim C6 (amended): for every dispatch of a task whose name is not
present in the registry, the registry lookup raises `KeyError`, which escapes
`Tasks.run_task` uncaught; no callable is ever invoked (the error result
carries no dispatch and no event trace). -/
theorem run_task_unregistered_raises (registry : List (String × ProxyModel))
    (runAsync : Bool) (store : List Task) (n : String) (args : Args)
    (kwargs : Kwargs) (h : lookupProxy registry n = none) :
    Tasks.run_task registry runAsync store (.name n) args kwargs =
      Except.error ⟨n⟩ := by
  simp [Tasks.run_task, h]

/-- Witness for the amended C6 at a concrete input: the empty registry and
the name `"missing"`. -/
theorem run_task_unregistered_raises_witness :
    lookupProxy [] "missing" = none ∧
    Tasks.run_task [] true [] (.name "missing") [] [] =
      Except.error ⟨"missing"⟩ :=
  ⟨rfl, run_task_unregistered_raises [] true [] "missing" [] [] rfl⟩

/-- Claim C7 counterexample: when the callable throws and no Task record is
associated with the execution (here: no matching record in the store),
`bg_runner` emits neither `task_successful` nor `task_error` — the claim that
exactly one of them fires on every execution fails. -/
theorem bg_runner_no_task_counterexample :
    (bg_runner ⟨"demo", none, some (fun _ _ => true)⟩ [] none [] []).count
        Event.successful = 0 ∧
    (bg_runner ⟨"demo", none, some (fun _ _ => true)⟩ [] none [] []).count
        Event.error = 0 ∧
    (bg_runner ⟨"demo", none, some (fun _ _ => true)⟩ [] none [] []) =
      [Event.started, Event.invoked [] [], Event.finished] :=
  ⟨rfl, rfl, rfl⟩

/-- Claim C7 (amended): on every execution through `bg_runner`, `started`
fires first (before any invocation of the callable) and `finished` fires
last, each exactly once; between them, exactly one of `successful` or `error`
fires when the execution has an associated Task record, and neither fires
when it has none. -/
theorem bg_runner_event_discipline (proxy : ProxyModel) (store : List Task)
    (taskArg : Option Task) (args : Args) (kwargs : Kwargs) :
    (bg_runner proxy store taskArg args kwargs).head? = some Event.started ∧
    (bg_runner proxy store taskArg args kwargs).getLast? = some Event.finished ∧
    (bg_runner proxy store taskArg args kwargs).count Event.started = 1 ∧
    (bg_runner proxy store taskArg args kwargs).count Event.finished = 1 ∧
    (bg_runner proxy store taskArg args kwargs).count Event.successful +
        (bg_runner proxy store taskArg args kwargs).count Event.error =
      (if (bgResolve proxy store taskArg args kwargs).2.2.isSome then 1 else 0) := by
  rcases hr : bgResolve proxy store taskArg args kwargs with ⟨a, k, task⟩
  rcases proxy with ⟨nm, qu, fn⟩
  simp only [bg_runner, hr]
  cases fn with
  | none => cases task <;> exact ⟨rfl, rfl, rfl, rfl, rfl⟩
  | some f =>
      cases hfk : f a k <;> cases task <;>
        simp only [hfk, if_true, if_false, Bool.false_eq_true] <;>
          exact ⟨rfl, rfl, rfl, rfl, rfl⟩

/-- Claim C10: when the execution entry point receives a persisted `Task`
instance, the supplied args/kwargs are ignored — `Tasks.run_task` behaves
identically for any supplied arguments — and the callable is invoked with
exactly the positional and keyword arguments deserialized from the Task's
stored params. -/
theorem run_task_instance_uses_stored_params (registry : List (String × ProxyModel))
    (runAsync : Bool) (store : List Task) (t : Task) (args : Args)
    (kwargs : Kwargs) :
    Tasks.run_task registry runAsync store (.inst t) args kwargs =
      Tasks.run_task registry runAsync store (.inst t) [] [] ∧
    ∀ (nm : String) (qu : Option String) (f : Args → Kwargs → Bool)
      (a : Args) (k : Kwargs),
      (Event.invoked a k ∈ bg_runner ⟨nm, qu, some f⟩ store (some t) args kwargs ↔
        (a = t.params.args ∧ k = t.params.kwargs)) := by
  refine ⟨rfl, ?_⟩
  intro nm qu f a k
  cases hfk : f t.params.args t.params.kwargs <;>
    simp [bg_runner, bgResolve, hfk]

/-- The Python value stored in `TaskSchedule._run_at`: an absolute timestamp
(`datetime`), a plain integer number of seconds, or a duration (`timedelta`). -/
inductive PyRunAt
  | dt (t : Int)
  | secs (n : Int)
  | delta (d : Int)
deriving DecidableEq, Repr

/-- Python truthiness of a `_run_at` value: a `datetime` is always truthy, an
integer or a `timedelta` is truthy iff nonzero. -/
def truthyRunAt : PyRunAt → Bool
  | .dt _ => true
  | .secs n => decide (n ≠ 0)
  | .delta d => decide (d ≠ 0)

/-- The `TaskSchedule` object: the three stored optional overrides
(`_run_at`, `_priority`, `_action`). -/
structure TaskSchedule where
  runAtOpt : Option PyRunAt
  priorityOpt : Option Int
  actionOpt : Option ScheduleAction
deriving DecidableEq, Repr

/-- The `TaskSchedule.run_at` property:
`run_at = self._run_at or timezone.now()`, then an integer becomes
`now + timedelta(seconds=run_at)` and a `timedelta` becomes `now + run_at`.
`now` is the clock value at the moment the property is read (schedule-call
time), passed as an argument. -/
def TaskSchedule.run_at (s : TaskSchedule) (now : Int) : Int :=
  let r : PyRunAt :=
    match s.runAtOpt with
    | some v => if truthyRunAt v then v else .dt now
    | none => .dt now
  let r2 : PyRunAt :=
    match r with
    | .secs m => .dt (now + m)
    | other => other
  match r2 with
  | .delta dd => now + dd
  | .dt tt => tt
  | .secs m => m

/-- The `TaskSchedule.priority` property: `self._priority or 0`. -/
def TaskSchedule.priority (s : TaskSchedule) : Int :=
  match s.priorityOpt with
  | some p => if p = 0 then 0 else p
  | none => 0

/-- The `TaskSchedule.action` property: `self._action or TaskSchedule.SCHEDULE`
(the `SCHEDULE` constant is `0` and therefore falsy). -/
def TaskSchedule.action (s : TaskSchedule) : ScheduleAction :=
  match s.actionOpt with
  | some a => if a = .SCHEDULE then .SCHEDULE else a
  | none => .SCHEDULE

/-- `TaskSchedule.merge`: for each of the three attributes, keep the
receiver's value unless it `is None`, in which case take the other
schedule's; a fresh `TaskSchedule` is returned and neither input is
modified. -/
def TaskSchedule.merge (s other : TaskSchedule) : TaskSchedule :=
  { runAtOpt := match s.runAtOpt with | some v => some v | none => other.runAtOpt
  , priorityOpt := match s.priorityOpt with | some v => some v | none => other.priorityOpt
  , actionOpt := match s.actionOpt with | some v => some v | none => other.actionOpt }

/-- The argument accepted by `TaskSchedule.create`: `None`, an existing
`TaskSchedule` (returned as is), a bare run-at value (int, timedelta or
datetime), or a dict with optional `run_at`/`priority`/`action` entries
(`isEmpty` records the dict's Python truthiness, which its three optional
entries alone cannot determine). -/
inductive ScheduleArg
  | pyNone
  | taskSchedule (s : TaskSchedule)
  | runAtVal (r : PyRunAt)
  | dict (isEmpty : Bool) (run_at : Option PyRunAt) (priority : Option Int)
      (action : Option ScheduleAction)

/-- Python truthiness of the `schedule` argument. -/
def truthyScheduleArg : ScheduleArg → Bool
  | .pyNone => false
  | .taskSchedule _ => true
  | .runAtVal r => truthyRunAt r
  | .dict isEmpty _ _ _ => !isEmpty

/-- `TaskSchedule.create`: a `TaskSchedule` instance passes through; a falsy
argument yields the empty override structure; a truthy bare run-at value
becomes the `run_at` override; a truthy dict contributes its three
entries. -/
def TaskSchedule.create : ScheduleArg → TaskSchedule
  | .taskSchedule s => s
  | sa =>
      if truthyScheduleArg sa then
        match sa with
        | .runAtVal r => ⟨some r, none, none⟩
        | .dict _ r p a => ⟨r, p, a⟩
        | _ => ⟨none, none, none⟩
      else ⟨none, none, none⟩

/-- The registered unit (`TaskProxy`): name, registration-time defaults
(`TaskSchedule.create(schedule)` stored at decoration time), queue, and the
`remove_existing_tasks` flag. -/
structure TaskProxy where
  name : String
  schedule : TaskSchedule
  queue : Option String
  remove_existing_tasks : Bool

/-- The special keyword arguments popped by `TaskProxy.__call__`; `none`
means the caller did not pass the keyword. -/
structure CallKwargs where
  schedule : ScheduleArg
  priority : Option Int
  queue : Option (Option String)
  remove_existing_tasks : Option Bool

/-- The values `TaskProxy.__call__` hands to `self.runner.schedule`. -/
structure ResolvedCall where
  run_at : Int
  priority : Int
  action : ScheduleAction
  queue : Option String
  remove_existing_tasks : Bool
deriving DecidableEq, Repr

/-- The resolution performed by `TaskProxy.__call__`:
`schedule = TaskSchedule.create(schedule).merge(self.schedule)`, then the
three properties are read (with `now` being the schedule-call clock), the
`priority` keyword defaults to `schedule.priority`, `queue` to `self.queue`
and `remove_existing_tasks` to `self.remove_existing_tasks`. -/
def TaskProxy.resolveCall (proxy : TaskProxy) (ck : CallKwargs) (now : Int) :
    ResolvedCall :=
  let sched := (TaskSchedule.create ck.schedule).merge proxy.schedule
  { run_at := sched.run_at now
  , priority := match ck.priority with | some pv => pv | none => sched.priority
  , action := sched.action
  , queue := match ck.queue with | some qv => qv | none => proxy.queue
  , remove_existing_tasks :=
      match ck.remove_existing_tasks with
      | some b => b
      | none => proxy.remove_existing_tasks }

/-- First-`some` chaining of two optional overrides (the override order
described by the spec: the first value wins when present). -/
def chainO {α : Type} (a b : Option α) : Option α :=
  match a with
  | some v => some v
  | none => b

theorem TaskSchedule.merge_eq (s other : TaskSchedule) :
    s.merge other =
      ⟨chainO s.runAtOpt other.runAtOpt,
       chainO s.priorityOpt other.priorityOpt,
       chainO s.actionOpt other.actionOpt⟩ := by
  rcases s with ⟨r, p, a⟩
  cases r <;> cases p <;> cases a <;> rfl

/-- `run_at` reads only the `_run_at` attribute. -/
theorem TaskSchedule.run_at_congr (x : Option PyRunAt) (p1 p2 : Option Int)
    (a1 a2 : Option ScheduleAction) (now : Int) :
    TaskSchedule.run_at ⟨x, p1, a1⟩ now = TaskSchedule.run_at ⟨x, p2, a2⟩ now := rfl

/-- `self._priority or 0` coincides with `getD 0` (a stored `0` is falsy but
the fallback is `0` as well). -/
theorem TaskSchedule.priority_eq (s : TaskSchedule) :
    s.priority = s.priorityOpt.getD 0 := by
  rcases s with ⟨r, p, a⟩
  cases p with
  | none => rfl
  | some pv =>
      by_cases h : pv = 0
      · simp [TaskSchedule.priority, h]
      · simp [TaskSchedule.priority, h]

/-- `self._action or SCHEDULE` coincides with `getD SCHEDULE` (`SCHEDULE = 0`
is falsy but the fallback is `SCHEDULE` as well). -/
theorem TaskSchedule.action_eq (s : TaskSchedule) :
    s.action = s.actionOpt.getD ScheduleAction.SCHEDULE := by
  rcases s with ⟨r, p, a⟩
  cases a with
  | none => rfl
  | some av => cases av <;> rfl

/-- Claim C8: schedule-time normalization of `run_at`: an absolute timestamp
passes through unchanged; an integer `n` or a duration `d` yields
`now + n` seconds (respectively `now + d`), where `now` is the clock value
supplied when the property is read — i.e. at schedule-call time, not at
registration time; an absent `run_at` yields the schedule-call time
itself. -/
theorem run_at_normalization (now t n d : Int) :
    TaskSchedule.run_at ⟨some (.dt t), none, none⟩ now = t ∧
    TaskSchedule.run_at ⟨some (.secs n), none, none⟩ now = now + n ∧
    TaskSchedule.run_at ⟨some (.delta d), none, none⟩ now = now + d ∧
    TaskSchedule.run_at ⟨none, none, none⟩ now = now := by
  refine ⟨rfl, ?_, ?_, rfl⟩
  · by_cases hn : n = 0
    · subst hn; simp [TaskSchedule.run_at, truthyRunAt]
    · simp [TaskSchedule.run_at, truthyRunAt, hn]
  · by_cases hd : d = 0
    · subst hd; simp [TaskSchedule.run_at, truthyRunAt]
    · simp [TaskSchedule.run_at, truthyRunAt, hd]

/-- Claim C9: `TaskProxy.__call__` resolves `run_at`, `priority` and `action`
by a pure override chain: a per-call value (the explicit `priority` keyword,
or the created per-call schedule's attribute) wins over the unit's registered
default, which wins over the global defaults `run_at = now`, `priority = 0`,
`action = SCHEDULE` (the global `run_at`/`priority`/`action` fallbacks live
in the property reads).  The merge is the pure function `TaskSchedule.merge`
of the two override structures: its result is determined by their attributes
alone and both inputs are left untouched. -/
theorem resolve_call_precedence (proxy : TaskProxy) (sArg : ScheduleArg)
    (pk : Option Int) (qk : Option (Option String)) (rk : Option Bool)
    (now : Int) :
    TaskProxy.resolveCall proxy ⟨sArg, pk, qk, rk⟩ now =
      { run_at := TaskSchedule.run_at
          ⟨chainO (TaskSchedule.create sArg).runAtOpt proxy.schedule.runAtOpt,
           none, none⟩ now
      , priority := (chainO pk (chainO (TaskSchedule.create sArg).priorityOpt
          proxy.schedule.priorityOpt)).getD 0
      , action := (chainO (TaskSchedule.create sArg).actionOpt
          proxy.schedule.actionOpt).getD ScheduleAction.SCHEDULE
      , queue := qk.getD proxy.queue
      , remove_existing_tasks := rk.getD proxy.remove_existing_tasks } := by
  simp only [TaskProxy.resolveCall, TaskSchedule.merge_eq, ResolvedCall.mk.injEq]
  refine ⟨?_, ?_, ?_, ?_, ?_⟩
  · exact TaskSchedule.run_at_congr _ _ _ _ _ _
  · cases pk with
    | some pv => rfl
    | none => exact TaskSchedule.priority_eq _
  · exact TaskSchedule.action_eq _
  · cases qk with
    | some qv => rfl
    | none => rfl
  · cases rk with
    | some b => rfl
    | none => rfl

end BackgroundTasks
